import Mathlib

/-!
Shallow embedding of `GPflow/sgpr.py` (SGPR and GPRFITC sparse Gaussian
process regression models).

Matrix entries are modelled as rationals.  The TensorFlow numerical
primitives the file calls (`tf.cholesky`, `tf.matrix_triangular_solve`,
`tf.log`, `tf.sqrt`, and the constant `log (2*pi)`) are external
collaborators of this module, so they are modelled as an abstract
`Backend` of uninterpreted functions; likewise the kernel object
(`kern.K`, `kern.Kdiag`, `kern.Kzx`, `kern.Kzz`) and the mean function
are abstract collaborators, exactly as the design document scopes them.
Every definition below transcribes a named intermediate of the Python
source, keeping its name and the line it comes from.
-/

open Matrix

/-- The TensorFlow linear-algebra and scalar primitives used by
`sgpr.py`, abstracted as uninterpreted operations:
`cholesky` models `tf.cholesky`, `solveLower` models
`tf.matrix_triangular_solve (..., lower=True)`, `solveUpper` models
`tf.matrix_triangular_solve (..., lower=False)`, `log` models `tf.log`
(and `np.log` on scalars), `sqrt` models `tf.sqrt`, and `log2pi` models
the scalar constant `log (2 * pi)`. -/
structure Backend where
  cholesky : ∀ {m : ℕ}, Matrix (Fin m) (Fin m) ℚ → Matrix (Fin m) (Fin m) ℚ
  solveLower : ∀ {m k : ℕ}, Matrix (Fin m) (Fin m) ℚ → Matrix (Fin m) (Fin k) ℚ →
    Matrix (Fin m) (Fin k) ℚ
  solveUpper : ∀ {m k : ℕ}, Matrix (Fin m) (Fin m) ℚ → Matrix (Fin m) (Fin k) ℚ →
    Matrix (Fin m) (Fin k) ℚ
  log : ℚ → ℚ
  sqrt : ℚ → ℚ
  log2pi : ℚ

/-- The kernel collaborator: `K A` models `kern.K(A)` (the square Gram
matrix of one point set), `Kdiag A` models `kern.Kdiag(A)`, `Kzx Z X`
models the inter-domain cross covariance `kern.Kzx(Z, X)`, and `Kzz Z`
models `kern.Kzz(Z)`. -/
structure Kern (D : ℕ) where
  K : ∀ {n : ℕ}, Matrix (Fin n) (Fin D) ℚ → Matrix (Fin n) (Fin n) ℚ
  Kdiag : ∀ {n : ℕ}, Matrix (Fin n) (Fin D) ℚ → (Fin n → ℚ)
  Kzx : ∀ {m n : ℕ}, Matrix (Fin m) (Fin D) ℚ → Matrix (Fin n) (Fin D) ℚ →
    Matrix (Fin m) (Fin n) ℚ
  Kzz : ∀ {m : ℕ}, Matrix (Fin m) (Fin D) ℚ → Matrix (Fin m) (Fin m) ℚ

/-- The mean-function collaborator: `mean A` models `mean_function(A)`,
a matrix with one column per latent output. -/
structure MeanFn (D R : ℕ) where
  mean : ∀ {n : ℕ}, Matrix (Fin n) (Fin D) ℚ → Matrix (Fin n) (Fin R) ℚ

/-- The parameter snapshot a single evaluation of `build_likelihood` /
`build_predict` reads: the data `X` (N×D) and `Y` (N×R), the inducing
inputs `Z` (M×D) (`self.Z`), the Gaussian noise variance
(`self.likelihood.variance`), the jitter level
(`settings.numerics.jitter_level`), and the kernel, mean-function and
numerical-backend collaborators.  `SGPR.__init__` and
`GPRFITC.__init__` store exactly the same fields, so both engines share
this state type. -/
structure ModelState (N D M R : ℕ) where
  X : Matrix (Fin N) (Fin D) ℚ
  Y : Matrix (Fin N) (Fin R) ℚ
  Z : Matrix (Fin M) (Fin D) ℚ
  variance : ℚ
  jitter : ℚ
  kern : Kern D
  mean_function : MeanFn D R
  bk : Backend

/-- Elementwise division of a matrix by a scalar, as TensorFlow's `/`
broadcasts a scalar divisor. -/
def sdiv {m k : ℕ} (A : Matrix (Fin m) (Fin k) ℚ) (c : ℚ) : Matrix (Fin m) (Fin k) ℚ :=
  Matrix.of fun i j => A i j / c

/-- The variance returned by `build_predict`: an S×S×R tensor when
`full_cov=True`, an S×R matrix when `full_cov=False`. -/
inductive PredVar (S R : ℕ) where
  | full : (Fin S → Fin S → Fin R → ℚ) → PredVar S R
  | diag : (Fin S → Fin R → ℚ) → PredVar S R

namespace SGPR

variable {N D M R S : ℕ}

/-- `err = self.Y - self.mean_function(self.X)` (sgpr.py line 78). -/
def err (s : ModelState N D M R) : Matrix (Fin N) (Fin R) ℚ :=
  s.Y - s.mean_function.mean s.X

/-- `Kdiag = self.kern.Kdiag(self.X)` (line 79). -/
def Kdiag (s : ModelState N D M R) : Fin N → ℚ :=
  s.kern.Kdiag s.X

/-- `Kuf = self.kern.Kzx(self.Z, self.X)` (line 80). -/
def Kuf (s : ModelState N D M R) : Matrix (Fin M) (Fin N) ℚ :=
  s.kern.Kzx s.Z s.X

/-- `Kuu = self.kern.Kzz(self.Z) + tf.eye(num_inducing) * jitter_level`
(line 81). -/
def Kuu (s : ModelState N D M R) : Matrix (Fin M) (Fin M) ℚ :=
  s.kern.Kzz s.Z + s.jitter • (1 : Matrix (Fin M) (Fin M) ℚ)

/-- `L = tf.cholesky(Kuu)` (line 82). -/
def L (s : ModelState N D M R) : Matrix (Fin M) (Fin M) ℚ :=
  s.bk.cholesky (Kuu s)

/-- `sigma = tf.sqrt(self.likelihood.variance)` (line 83). -/
def sigma (s : ModelState N D M R) : ℚ :=
  s.bk.sqrt s.variance

/-- `A = tf.matrix_triangular_solve(L, Kuf, lower=True) / sigma` (line 86). -/
def A (s : ModelState N D M R) : Matrix (Fin M) (Fin N) ℚ :=
  sdiv (s.bk.solveLower (L s) (Kuf s)) (sigma s)

/-- `AAT = tf.matmul(A, A, transpose_b=True)` (line 87). -/
def AAT (s : ModelState N D M R) : Matrix (Fin M) (Fin M) ℚ :=
  A s * (A s)ᵀ

/-- `B = AAT + tf.eye(num_inducing)` (line 88). -/
def B (s : ModelState N D M R) : Matrix (Fin M) (Fin M) ℚ :=
  AAT s + 1

/-- `LB = tf.cholesky(B)` (line 89). -/
def LB (s : ModelState N D M R) : Matrix (Fin M) (Fin M) ℚ :=
  s.bk.cholesky (B s)

/-- `Aerr = tf.matmul(A, err)` (line 90). -/
def Aerr (s : ModelState N D M R) : Matrix (Fin M) (Fin R) ℚ :=
  A s * err s

/-- `c = tf.matrix_triangular_solve(LB, Aerr, lower=True) / sigma` (line 91). -/
def c (s : ModelState N D M R) : Matrix (Fin M) (Fin R) ℚ :=
  sdiv (s.bk.solveLower (LB s) (Aerr s)) (sigma s)

/-- `SGPR.build_likelihood` (lines 67-102): the running `bound`
accumulation of lines 94-100, transcribed as a left-associated sum in
the order the source adds the terms.  `num_data` is N, `output_dim` is
R (lines 75-76). -/
def build_likelihood (s : ModelState N D M R) : ℚ :=
  -0.5 * (N : ℚ) * (R : ℚ) * s.bk.log2pi
    + (-(R : ℚ) * ∑ i, s.bk.log (LB s i i))
    + (-(0.5 * (N : ℚ) * (R : ℚ) * s.bk.log s.variance))
    + (-0.5 * (∑ i, ∑ r, (err s i r) ^ 2) / s.variance)
    + 0.5 * (∑ i, ∑ r, (c s i r) ^ 2)
    + (-0.5 * (R : ℚ) * (∑ i, Kdiag s i) / s.variance)
    + 0.5 * (R : ℚ) * (∑ i, AAT s i i)

/-! `SGPR.build_predict` (lines 104-135) recomputes its intermediates
from scratch (lines 110-121); each is transcribed separately below from
its own source line, with a `p` prefix to distinguish the prediction
site from the likelihood site. -/

/-- `err = self.Y - self.mean_function(self.X)` (line 111). -/
def perr (s : ModelState N D M R) : Matrix (Fin N) (Fin R) ℚ :=
  s.Y - s.mean_function.mean s.X

/-- `Kuf = self.kern.Kzx(self.Z, self.X)` (line 112). -/
def pKuf (s : ModelState N D M R) : Matrix (Fin M) (Fin N) ℚ :=
  s.kern.Kzx s.Z s.X

/-- `Kuu = self.kern.Kzz(self.Z) + tf.eye(num_inducing) * jitter_level`
(line 113). -/
def pKuu (s : ModelState N D M R) : Matrix (Fin M) (Fin M) ℚ :=
  s.kern.Kzz s.Z + s.jitter • (1 : Matrix (Fin M) (Fin M) ℚ)

/-- `Kus = self.kern.Kzx(self.Z, Xnew)` (line 114). -/
def Kus (s : ModelState N D M R) (Xnew : Matrix (Fin S) (Fin D) ℚ) :
    Matrix (Fin M) (Fin S) ℚ :=
  s.kern.Kzx s.Z Xnew

/-- `sigma = tf.sqrt(self.likelihood.variance)` (line 115). -/
def psigma (s : ModelState N D M R) : ℚ :=
  s.bk.sqrt s.variance

/-- `L = tf.cholesky(Kuu)` (line 116). -/
def pL (s : ModelState N D M R) : Matrix (Fin M) (Fin M) ℚ :=
  s.bk.cholesky (pKuu s)

/-- `A = tf.matrix_triangular_solve(L, Kuf, lower=True) / sigma` (line 117). -/
def pA (s : ModelState N D M R) : Matrix (Fin M) (Fin N) ℚ :=
  sdiv (s.bk.solveLower (pL s) (pKuf s)) (psigma s)

/-- `B = tf.matmul(A, A, transpose_b=True) + tf.eye(num_inducing)` (line 118). -/
def pB (s : ModelState N D M R) : Matrix (Fin M) (Fin M) ℚ :=
  pA s * (pA s)ᵀ + 1

/-- `LB = tf.cholesky(B)` (line 119). -/
def pLB (s : ModelState N D M R) : Matrix (Fin M) (Fin M) ℚ :=
  s.bk.cholesky (pB s)

/-- `Aerr = tf.matmul(A, err)` (line 120). -/
def pAerr (s : ModelState N D M R) : Matrix (Fin M) (Fin R) ℚ :=
  pA s * perr s

/-- `c = tf.matrix_triangular_solve(LB, Aerr, lower=True) / sigma` (line 121). -/
def pc (s : ModelState N D M R) : Matrix (Fin M) (Fin R) ℚ :=
  sdiv (s.bk.solveLower (pLB s) (pAerr s)) (psigma s)

/-- `tmp1 = tf.matrix_triangular_solve(L, Kus, lower=True)` (line 122). -/
def tmp1 (s : ModelState N D M R) (Xnew : Matrix (Fin S) (Fin D) ℚ) :
    Matrix (Fin M) (Fin S) ℚ :=
  s.bk.solveLower (pL s) (Kus s Xnew)

/-- `tmp2 = tf.matrix_triangular_solve(LB, tmp1, lower=True)` (line 123). -/
def tmp2 (s : ModelState N D M R) (Xnew : Matrix (Fin S) (Fin D) ℚ) :
    Matrix (Fin M) (Fin S) ℚ :=
  s.bk.solveLower (pLB s) (tmp1 s Xnew)

/-- The returned mean, `tf.matmul(tmp2, c, transpose_a=True) +
self.mean_function(Xnew)` (lines 124 and 135). -/
def predict_mean (s : ModelState N D M R) (Xnew : Matrix (Fin S) (Fin D) ℚ) :
    Matrix (Fin S) (Fin R) ℚ :=
  (tmp2 s Xnew)ᵀ * pc s + s.mean_function.mean Xnew

/-- The `full_cov=True` variance (lines 126-129): `self.kern.K(Xnew) +
tmp2^T tmp2 - tmp1^T tmp1`, tiled along a new trailing axis of size R. -/
def predict_var_full (s : ModelState N D M R) (Xnew : Matrix (Fin S) (Fin D) ℚ) :
    Fin S → Fin S → Fin R → ℚ :=
  fun i j _r =>
    (s.kern.K Xnew + (tmp2 s Xnew)ᵀ * tmp2 s Xnew - (tmp1 s Xnew)ᵀ * tmp1 s Xnew) i j

/-- The `full_cov=False` variance (lines 131-134): `self.kern.Kdiag(Xnew)
+ colsum(tmp2^2) - colsum(tmp1^2)`, tiled along a new trailing axis of
size R. -/
def predict_var_diag (s : ModelState N D M R) (Xnew : Matrix (Fin S) (Fin D) ℚ) :
    Fin S → Fin R → ℚ :=
  fun i _r =>
    s.kern.Kdiag Xnew i + (∑ m, (tmp2 s Xnew m i) ^ 2) - ∑ m, (tmp1 s Xnew m i) ^ 2

/-- `SGPR.build_predict` (lines 104-135): the returned pair of mean and
(full or diagonal, after tiling) variance. -/
def build_predict (s : ModelState N D M R) (Xnew : Matrix (Fin S) (Fin D) ℚ)
    (full_cov : Bool) : Matrix (Fin S) (Fin R) ℚ × PredVar S R :=
  (predict_mean s Xnew,
   if full_cov then .full (predict_var_full s Xnew) else .diag (predict_var_diag s Xnew))

end SGPR

namespace GPRFITC

variable {N D M R S : ℕ}

/-! `GPRFITC.build_common_terms` (sgpr.py lines 172-192), transcribed
one named intermediate per definition. -/

/-- `err = self.Y - self.mean_function(self.X)` (line 174). -/
def err (s : ModelState N D M R) : Matrix (Fin N) (Fin R) ℚ :=
  s.Y - s.mean_function.mean s.X

/-- `Kdiag = self.kern.Kdiag(self.X)` (line 175). -/
def Kdiag (s : ModelState N D M R) : Fin N → ℚ :=
  s.kern.Kdiag s.X

/-- `Kuf = self.kern.Kzx(self.Z, self.X)` (line 176). -/
def Kuf (s : ModelState N D M R) : Matrix (Fin M) (Fin N) ℚ :=
  s.kern.Kzx s.Z s.X

/-- `Kuu = self.kern.Kzz(self.Z) + tf.eye(num_inducing) * jitter_level`
(line 177). -/
def Kuu (s : ModelState N D M R) : Matrix (Fin M) (Fin M) ℚ :=
  s.kern.Kzz s.Z + s.jitter • (1 : Matrix (Fin M) (Fin M) ℚ)

/-- `Luu = tf.cholesky(Kuu)` (line 179). -/
def Luu (s : ModelState N D M R) : Matrix (Fin M) (Fin M) ℚ :=
  s.bk.cholesky (Kuu s)

/-- `V = tf.matrix_triangular_solve(Luu, Kuf)` (line 180; `lower` defaults
to `True`). -/
def V (s : ModelState N D M R) : Matrix (Fin M) (Fin N) ℚ :=
  s.bk.solveLower (Luu s) (Kuf s)

/-- `diagQff = tf.reduce_sum(tf.square(V), 0)` (line 182): the column
sums of the squared entries of V. -/
def diagQff (s : ModelState N D M R) : Fin N → ℚ :=
  fun n => ∑ m, (V s m n) ^ 2

/-- `nu = Kdiag - diagQff + self.likelihood.variance` (line 183).  No
flooring and no positivity check is applied. -/
def nu (s : ModelState N D M R) : Fin N → ℚ :=
  fun n => Kdiag s n - diagQff s n + s.variance

/-- `B = tf.eye(num_inducing) + tf.matmul(V / nu, V, transpose_b=True)`
(line 185); `V / nu` broadcasts `nu` across the columns of V. -/
def B (s : ModelState N D M R) : Matrix (Fin M) (Fin M) ℚ :=
  1 + (Matrix.of fun m n => V s m n / nu s n) * (V s)ᵀ

/-- `L = tf.cholesky(B)` (line 186). -/
def L (s : ModelState N D M R) : Matrix (Fin M) (Fin M) ℚ :=
  s.bk.cholesky (B s)

/-- `beta = err / tf.expand_dims(nu, 1)` (line 187): each row of `err`
divided elementwise by the matching entry of `nu`. -/
def beta (s : ModelState N D M R) : Matrix (Fin N) (Fin R) ℚ :=
  Matrix.of fun n r => err s n r / nu s n

/-- `alpha = tf.matmul(V, beta)` (line 188). -/
def alpha (s : ModelState N D M R) : Matrix (Fin M) (Fin R) ℚ :=
  V s * beta s

/-- `gamma = tf.matrix_triangular_solve(L, alpha, lower=True)` (line 190). -/
def gamma (s : ModelState N D M R) : Matrix (Fin M) (Fin R) ℚ :=
  s.bk.solveLower (L s) (alpha s)

/-- `build_common_terms` returns
`err, nu, Luu, L, alpha, beta, gamma` (line 192). -/
def build_common_terms (s : ModelState N D M R) :
    Matrix (Fin N) (Fin R) ℚ × (Fin N → ℚ) × Matrix (Fin M) (Fin M) ℚ ×
      Matrix (Fin M) (Fin M) ℚ × Matrix (Fin M) (Fin R) ℚ ×
      Matrix (Fin N) (Fin R) ℚ × Matrix (Fin M) (Fin R) ℚ :=
  (err s, nu s, Luu s, L s, alpha s, beta s, gamma s)

/-- `mahalanobisTerm = -0.5 * reduce_sum(square(err) / expand_dims(nu, 1))
+ 0.5 * reduce_sum(square(gamma))` (lines 220-221). -/
def mahalanobisTerm (s : ModelState N D M R) : ℚ :=
  -0.5 * (∑ n, ∑ r, (err s n r) ^ 2 / nu s n) + 0.5 * (∑ m, ∑ r, (gamma s m r) ^ 2)

/-- `constantTerm = -0.5 * self.num_data * tf.log(2 * pi)` (line 232);
`num_data` is N. -/
def constantTerm (s : ModelState N D M R) : ℚ :=
  -0.5 * (N : ℚ) * s.bk.log2pi

/-- `logDeterminantTerm = -0.5 * reduce_sum(log(nu)) -
reduce_sum(log(diag_part(L)))` (line 233). -/
def logDeterminantTerm (s : ModelState N D M R) : ℚ :=
  -0.5 * (∑ n, s.bk.log (nu s n)) - ∑ m, s.bk.log (L s m m)

/-- `logNormalizingTerm = constantTerm + logDeterminantTerm` (line 234). -/
def logNormalizingTerm (s : ModelState N D M R) : ℚ :=
  constantTerm s + logDeterminantTerm s

/-- `GPRFITC.build_likelihood` (lines 194-236): returns
`mahalanobisTerm + logNormalizingTerm * self.num_latent`; `num_latent`
is R. -/
def build_likelihood (s : ModelState N D M R) : ℚ :=
  mahalanobisTerm s + logNormalizingTerm s * (R : ℚ)

/-! `GPRFITC.build_predict` (lines 238-260) destructures
`build_common_terms` for `Luu`, `L`, `gamma` and computes the rest
fresh. -/

/-- `Kus = self.kern.Kzx(self.Z, Xnew)` (line 244). -/
def pKus (s : ModelState N D M R) (Xnew : Matrix (Fin S) (Fin D) ℚ) :
    Matrix (Fin M) (Fin S) ℚ :=
  s.kern.Kzx s.Z Xnew

/-- `w = tf.matrix_triangular_solve(Luu, Kus, lower=True)` (line 246). -/
def w (s : ModelState N D M R) (Xnew : Matrix (Fin S) (Fin D) ℚ) :
    Matrix (Fin M) (Fin S) ℚ :=
  s.bk.solveLower (Luu s) (pKus s Xnew)

/-- `tmp = tf.matrix_triangular_solve(tf.transpose(L), gamma, lower=False)`
(line 248). -/
def tmp (s : ModelState N D M R) : Matrix (Fin M) (Fin R) ℚ :=
  s.bk.solveUpper (L s)ᵀ (gamma s)

/-- `mean = tf.matmul(w, tmp, transpose_a=True) + self.mean_function(Xnew)`
(line 249). -/
def predict_mean (s : ModelState N D M R) (Xnew : Matrix (Fin S) (Fin D) ℚ) :
    Matrix (Fin S) (Fin R) ℚ :=
  (w s Xnew)ᵀ * tmp s + s.mean_function.mean Xnew

/-- `intermediateA = tf.matrix_triangular_solve(L, w, lower=True)` (line 250). -/
def intermediateA (s : ModelState N D M R) (Xnew : Matrix (Fin S) (Fin D) ℚ) :
    Matrix (Fin M) (Fin S) ℚ :=
  s.bk.solveLower (L s) (w s Xnew)

/-- The `full_cov=True` variance (lines 253-255): `self.kern.K(Xnew) -
w^T w + intermediateA^T intermediateA`, tiled along a new trailing axis
of size R. -/
def predict_var_full (s : ModelState N D M R) (Xnew : Matrix (Fin S) (Fin D) ℚ) :
    Fin S → Fin S → Fin R → ℚ :=
  fun i j _r =>
    (s.kern.K Xnew - (w s Xnew)ᵀ * w s Xnew
      + (intermediateA s Xnew)ᵀ * intermediateA s Xnew) i j

/-- The `full_cov=False` variance (lines 257-259): `self.kern.Kdiag(Xnew)
- colsum(w^2) + colsum(intermediateA^2)`, tiled along a new trailing
axis of size R. -/
def predict_var_diag (s : ModelState N D M R) (Xnew : Matrix (Fin S) (Fin D) ℚ) :
    Fin S → Fin R → ℚ :=
  fun i _r =>
    s.kern.Kdiag Xnew i - (∑ m, (w s Xnew m i) ^ 2) + ∑ m, (intermediateA s Xnew m i) ^ 2

/-- `GPRFITC.build_predict` (lines 238-260): the returned pair of mean
and (full or diagonal, after tiling) variance. -/
def build_predict (s : ModelState N D M R) (Xnew : Matrix (Fin S) (Fin D) ℚ)
    (full_cov : Bool) : Matrix (Fin S) (Fin R) ℚ × PredVar S R :=
  (predict_mean s Xnew,
   if full_cov then .full (predict_var_full s Xnew) else .diag (predict_var_diag s Xnew))

end GPRFITC

/-- The error taxonomy of the design document (section 7). -/
inductive ModelError where
  | ShapeMismatch
  | NumericalError
deriving DecidableEq

/-- Modelled from the spec: the construction-time shape validation lives
in `GPModel.__init__` / `DataHolder` / `Param` (modules `GPflow.model`
and `GPflow.param`, outside this file); per sections 3 and 7 the
invariants rows(X) = rows(Y) and cols(Z) = cols(X) are checked eagerly
and a violation surfaces `ShapeMismatch`, never recovered locally. -/
def checkShapes (rowsX colsX rowsY _colsY _rowsZ colsZ : ℕ) : Except ModelError Unit :=
  if rowsX = rowsY ∧ colsZ = colsX then Except.ok () else Except.error ModelError.ShapeMismatch

/-- Modelled from the spec: `SGPR.__init__` (lines 50-65) wraps the data,
validates shapes eagerly, and on success records `num_data = rows(X)`
and `num_latent = cols(Y)` (lines 64-65). -/
def mkSGPR (rowsX colsX rowsY colsY rowsZ colsZ : ℕ) : Except ModelError (ℕ × ℕ) :=
  match checkShapes rowsX colsX rowsY colsY rowsZ colsZ with
  | Except.ok _ => Except.ok (rowsX, colsY)
  | Except.error e => Except.error e

/-- Modelled from the spec: `GPRFITC.__init__` (lines 139-170) performs
the same construction as `SGPR.__init__`, recording `num_data = rows(X)`
and `num_latent = cols(Y)` (lines 169-170). -/
def mkGPRFITC (rowsX colsX rowsY colsY rowsZ colsZ : ℕ) : Except ModelError (ℕ × ℕ) :=
  match checkShapes rowsX colsX rowsY colsY rowsZ colsZ with
  | Except.ok _ => Except.ok (rowsX, colsY)
  | Except.error e => Except.error e

namespace SGPR

/-- One call of `SGPR.build_likelihood` on a model object: the method
body (lines 67-102) reads the parameter snapshot and assigns no
attribute, so a call returns the bound together with the unchanged
state. -/
def evidence_call {N D M R : ℕ} (s : ModelState N D M R) : ℚ × ModelState N D M R :=
  (build_likelihood s, s)

/-- One call of `SGPR.build_predict` on a model object: the method body
(lines 104-135) reads the parameter snapshot and assigns no attribute. -/
def predict_call {N D M R S : ℕ} (s : ModelState N D M R)
    (Xnew : Matrix (Fin S) (Fin D) ℚ) (full_cov : Bool) :
    (Matrix (Fin S) (Fin R) ℚ × PredVar S R) × ModelState N D M R :=
  (build_predict s Xnew full_cov, s)

end SGPR

namespace GPRFITC

/-- One call of `GPRFITC.build_likelihood` (lines 194-236): no attribute
assignment, so the state is returned unchanged. -/
def evidence_call {N D M R : ℕ} (s : ModelState N D M R) : ℚ × ModelState N D M R :=
  (build_likelihood s, s)

/-- One call of `GPRFITC.build_predict` (lines 238-260): no attribute
assignment, so the state is returned unchanged. -/
def predict_call {N D M R S : ℕ} (s : ModelState N D M R)
    (Xnew : Matrix (Fin S) (Fin D) ℚ) (full_cov : Bool) :
    (Matrix (Fin S) (Fin R) ℚ × PredVar S R) × ModelState N D M R :=
  (build_predict s Xnew full_cov, s)

end GPRFITC

/-! Concrete instantiations used to evaluate the development on explicit
inputs. -/

/-- A concrete backend: identity cholesky and solves, identity log and
sqrt, and log2pi = 0. -/
def trivBackend : Backend where
  cholesky := fun {_m} A => A
  solveLower := fun {_m _k} _L B => B
  solveUpper := fun {_m _k} _L B => B
  log := fun x => x
  sqrt := fun x => x
  log2pi := 0

/-- The zero kernel: all Gram blocks vanish, so `Kdiag` agrees with the
diagonal of `K`. -/
def zeroKern : Kern 1 where
  K := fun {_n} _A => 0
  Kdiag := fun {_n} _A => fun _ => 0
  Kzx := fun {_m _n} _A _B => 0
  Kzz := fun {_m} _A => 0

/-- A concrete kernel whose low-rank diagonal overshoots `Kdiag`:
`Kzx` is the constant matrix 2 while `Kdiag` is 0, so `nu` goes
negative for small noise variance. -/
def overshootKern : Kern 1 where
  K := fun {_n} _A => 0
  Kdiag := fun {_n} _A => fun _ => 0
  Kzx := fun {_m _n} _A _B => Matrix.of fun _ _ => 2
  Kzz := fun {_m} _A => 0

/-- The zero mean function (the source's default `Zero()`). -/
def zeroMean : MeanFn 1 1 where
  mean := fun {_n} _A => 0

/-- A concrete well-behaved 1-point model state. -/
def wState : ModelState 1 1 1 1 where
  X := 0
  Y := 0
  Z := 0
  variance := 1
  jitter := 0
  kern := zeroKern
  mean_function := zeroMean
  bk := trivBackend

/-- A concrete query point for `wState`. -/
def wXnew : Matrix (Fin 1) (Fin 1) ℚ := 0

/-- A concrete model state on which the FITC effective noise `nu` is
negative: `Kdiag(X) - diagQff + variance = 0 - 4 + 1 = -3`. -/
def cState : ModelState 1 1 1 1 where
  X := 0
  Y := Matrix.of fun _ _ => 6
  Z := 0
  variance := 1
  jitter := 0
  kern := overshootKern
  mean_function := zeroMean
  bk := trivBackend

/-! The claims. -/

/-- Claim C1: for every valid model state, the SGPR evidence equals the
formula obtained by L = cholesky(Kzz + jitter I), A = solve(L, Kzx) / sigma,
B = A Aᵀ + I, LB = cholesky B, c = solve(LB, A err) / sigma with
err = Y - mean_function(X), and Bound = -N R log(2 pi)/2
- R sum(log diag LB) - N R log(sigma^2)/2 - sum(err^2)/(2 sigma^2)
+ sum(c^2)/2 - R sum(Kdiag X)/(2 sigma^2) + R sum(diag(A Aᵀ))/2. -/
theorem sgpr_evidence_formula {N D M R : ℕ} (s : ModelState N D M R) :
    SGPR.err s = s.Y - s.mean_function.mean s.X ∧
    SGPR.L s = s.bk.cholesky (s.kern.Kzz s.Z + s.jitter • 1) ∧
    SGPR.A s = sdiv (s.bk.solveLower (SGPR.L s) (s.kern.Kzx s.Z s.X)) (s.bk.sqrt s.variance) ∧
    SGPR.B s = SGPR.A s * (SGPR.A s)ᵀ + 1 ∧
    SGPR.LB s = s.bk.cholesky (SGPR.B s) ∧
    SGPR.c s = sdiv (s.bk.solveLower (SGPR.LB s) (SGPR.A s * SGPR.err s)) (s.bk.sqrt s.variance) ∧
    SGPR.build_likelihood s =
      -(1 / 2) * (N : ℚ) * (R : ℚ) * s.bk.log2pi
      - (R : ℚ) * (∑ i, s.bk.log (SGPR.LB s i i))
      - (1 / 2) * (N : ℚ) * (R : ℚ) * s.bk.log s.variance
      - (1 / 2) * (∑ i, ∑ r, (SGPR.err s i r) ^ 2) / s.variance
      + (1 / 2) * (∑ i, ∑ r, (SGPR.c s i r) ^ 2)
      - (1 / 2) * (R : ℚ) * (∑ i, s.kern.Kdiag s.X i) / s.variance
      + (1 / 2) * (R : ℚ) * (∑ i, (SGPR.A s * (SGPR.A s)ᵀ) i i) := by
  refine ⟨rfl, rfl, rfl, rfl, rfl, rfl, ?_⟩
  simp only [SGPR.build_likelihood, SGPR.AAT, SGPR.Kdiag]
  ring

/-- Claim C2: for every valid model state, the FITC evidence equals
MahalanobisTerm + R·LogNormalizer where, with the common terms
Luu = cholesky(Kzz + jitter I), V = solve(Luu, Kzx),
nu = Kdiag(X) - colsum(V^2) + sigma^2, B = I + (V/nu) Vᵀ,
L = cholesky B, gamma = solve(L, V (err/nu)),
MahalanobisTerm = -sum(err^2/nu)/2 + sum(gamma^2)/2 and
LogNormalizer = -N log(2 pi)/2 - sum(log nu)/2 - sum(log diag L). -/
theorem fitc_evidence_formula {N D M R : ℕ} (s : ModelState N D M R) :
    GPRFITC.Luu s = s.bk.cholesky (s.kern.Kzz s.Z + s.jitter • 1) ∧
    GPRFITC.V s = s.bk.solveLower (GPRFITC.Luu s) (s.kern.Kzx s.Z s.X) ∧
    GPRFITC.nu s = (fun n => s.kern.Kdiag s.X n - (∑ m, (GPRFITC.V s m n) ^ 2) + s.variance) ∧
    GPRFITC.B s = 1 + (Matrix.of fun m n => GPRFITC.V s m n / GPRFITC.nu s n) * (GPRFITC.V s)ᵀ ∧
    GPRFITC.L s = s.bk.cholesky (GPRFITC.B s) ∧
    GPRFITC.gamma s =
      s.bk.solveLower (GPRFITC.L s)
        (GPRFITC.V s * Matrix.of fun n r => GPRFITC.err s n r / GPRFITC.nu s n) ∧
    GPRFITC.build_likelihood s =
      (-(1 / 2) * (∑ n, ∑ r, (GPRFITC.err s n r) ^ 2 / GPRFITC.nu s n)
        + (1 / 2) * (∑ m, ∑ r, (GPRFITC.gamma s m r) ^ 2))
      + (R : ℚ) * (-(1 / 2) * (N : ℚ) * s.bk.log2pi
        - (1 / 2) * (∑ n, s.bk.log (GPRFITC.nu s n))
        - ∑ m, s.bk.log (GPRFITC.L s m m)) := by
  refine ⟨rfl, rfl, rfl, rfl, rfl, rfl, ?_⟩
  simp only [GPRFITC.build_likelihood, GPRFITC.mahalanobisTerm, GPRFITC.logNormalizingTerm,
    GPRFITC.constantTerm, GPRFITC.logDeterminantTerm]
  ring

/-- Claim C3 counterexample: the claim says nu is floored above zero and
that a non-positive nu fails fast; at this concrete state the component
nu_0 equals -3 (not floored above zero, not positive), and the
computation proceeds to use it: beta_00 = err/nu = -2 and the evidence
is an ordinary value. -/
theorem fitc_nu_not_floored_cex :
    GPRFITC.nu cState 0 = -3 ∧ ¬ (0 < GPRFITC.nu cState 0) ∧
    GPRFITC.beta cState 0 0 = -2 := by
  have hnu : GPRFITC.nu cState 0 = -3 := by
    simp only [GPRFITC.nu, GPRFITC.Kdiag, GPRFITC.diagQff, GPRFITC.V, GPRFITC.Luu,
      GPRFITC.Kuu, GPRFITC.Kuf, cState, overshootKern, trivBackend, Fin.sum_univ_one,
      Matrix.of_apply]
    norm_num
  refine ⟨hnu, by rw [hnu]; norm_num, ?_⟩
  simp only [GPRFITC.beta, GPRFITC.err, Matrix.of_apply, hnu]
  simp only [cState, zeroMean, Matrix.sub_apply, Matrix.of_apply, Matrix.zero_apply]
  norm_num

/-- Claim C3 amended: nu = Kdiag(X) - diagQff + noise_variance is
computed with no flooring and no positivity check, and is used as-is
downstream (in beta and in the Mahalanobis term) whatever its sign; no
NumericalError path exists in `build_common_terms`. -/
theorem fitc_nu_unfloored {N D M R : ℕ} (s : ModelState N D M R) :
    (∀ n, GPRFITC.nu s n = s.kern.Kdiag s.X n - (∑ m, (GPRFITC.V s m n) ^ 2) + s.variance) ∧
    (∀ n r, GPRFITC.beta s n r = GPRFITC.err s n r / GPRFITC.nu s n) ∧
    GPRFITC.mahalanobisTerm s =
      -(1 / 2) * (∑ n, ∑ r, (GPRFITC.err s n r) ^ 2 / GPRFITC.nu s n)
        + (1 / 2) * (∑ m, ∑ r, (GPRFITC.gamma s m r) ^ 2) := by
  refine ⟨fun _ => rfl, fun _ _ => rfl, ?_⟩
  simp only [GPRFITC.mahalanobisTerm]
  ring

/-- Claim C4: for every model state and query matrix, SGPR prediction
returns mean = tmp2ᵀ c + mean_function(Xnew) with
tmp1 = solve(L, Kzs) and tmp2 = solve(LB, tmp1); variance
K(Xnew) + tmp2ᵀ tmp2 - tmp1ᵀ tmp1 tiled identically across R when
full_cov is true, and Kdiag(Xnew) + colsum(tmp2^2) - colsum(tmp1^2)
tiled identically across R when full_cov is false. -/
theorem sgpr_predict_formula {N D M R S : ℕ} (s : ModelState N D M R)
    (Xnew : Matrix (Fin S) (Fin D) ℚ) :
    SGPR.tmp1 s Xnew = s.bk.solveLower (SGPR.pL s) (s.kern.Kzx s.Z Xnew) ∧
    SGPR.tmp2 s Xnew = s.bk.solveLower (SGPR.pLB s) (SGPR.tmp1 s Xnew) ∧
    (∀ fc, (SGPR.build_predict s Xnew fc).1 =
      (SGPR.tmp2 s Xnew)ᵀ * SGPR.pc s + s.mean_function.mean Xnew) ∧
    (SGPR.build_predict s Xnew true).2 =
      PredVar.full (fun i j _r =>
        (s.kern.K Xnew + (SGPR.tmp2 s Xnew)ᵀ * SGPR.tmp2 s Xnew
          - (SGPR.tmp1 s Xnew)ᵀ * SGPR.tmp1 s Xnew) i j) ∧
    (SGPR.build_predict s Xnew false).2 =
      PredVar.diag (fun i _r =>
        s.kern.Kdiag Xnew i + (∑ m, (SGPR.tmp2 s Xnew m i) ^ 2)
          - ∑ m, (SGPR.tmp1 s Xnew m i) ^ 2) :=
  ⟨rfl, rfl, fun _ => rfl, rfl, rfl⟩

/-- Claim C5: the intermediates L, A, B, LB, c recomputed inside
`SGPR.build_predict` (lines 110-121) are exactly those computed inside
`SGPR.build_likelihood` (lines 78-91), as functions of the same
parameter snapshot. -/
theorem sgpr_predict_recomputes_evidence_terms {N D M R : ℕ} (s : ModelState N D M R) :
    SGPR.perr s = SGPR.err s ∧
    SGPR.pL s = SGPR.L s ∧
    SGPR.pA s = SGPR.A s ∧
    SGPR.pB s = SGPR.B s ∧
    SGPR.pLB s = SGPR.LB s ∧
    SGPR.pc s = SGPR.c s :=
  ⟨rfl, rfl, rfl, rfl, rfl, rfl⟩

/-- Claim C6: FITC prediction reuses the common-terms outputs
(err, nu, Luu, L, alpha, beta, gamma) and returns
mean = wᵀ tmp + mean_function(Xnew) with w = solve(Luu, Kzs) and
tmp = solve(Lᵀ, gamma, upper); variance
Kdiag(Xnew) - colsum(w^2) + colsum(intermediateA^2)
(intermediateA = solve(L, w)) tiled identically across R when full_cov
is false, and K(Xnew) - wᵀ w + intermediateAᵀ intermediateA when true. -/
theorem fitc_predict_reuses_common_terms {N D M R S : ℕ} (s : ModelState N D M R)
    (Xnew : Matrix (Fin S) (Fin D) ℚ) :
    GPRFITC.build_common_terms s =
      (GPRFITC.err s, GPRFITC.nu s, GPRFITC.Luu s, GPRFITC.L s, GPRFITC.alpha s,
       GPRFITC.beta s, GPRFITC.gamma s) ∧
    GPRFITC.w s Xnew = s.bk.solveLower (GPRFITC.Luu s) (s.kern.Kzx s.Z Xnew) ∧
    GPRFITC.tmp s = s.bk.solveUpper (GPRFITC.L s)ᵀ (GPRFITC.gamma s) ∧
    (∀ fc, (GPRFITC.build_predict s Xnew fc).1 =
      (GPRFITC.w s Xnew)ᵀ * GPRFITC.tmp s + s.mean_function.mean Xnew) ∧
    GPRFITC.intermediateA s Xnew = s.bk.solveLower (GPRFITC.L s) (GPRFITC.w s Xnew) ∧
    (GPRFITC.build_predict s Xnew false).2 =
      PredVar.diag (fun i _r =>
        s.kern.Kdiag Xnew i - (∑ m, (GPRFITC.w s Xnew m i) ^ 2)
          + ∑ m, (GPRFITC.intermediateA s Xnew m i) ^ 2) ∧
    (GPRFITC.build_predict s Xnew true).2 =
      PredVar.full (fun i j _r =>
        (s.kern.K Xnew - (GPRFITC.w s Xnew)ᵀ * GPRFITC.w s Xnew
          + (GPRFITC.intermediateA s Xnew)ᵀ * GPRFITC.intermediateA s Xnew) i j) :=
  ⟨rfl, rfl, rfl, fun _ => rfl, rfl, rfl, rfl⟩

/-- Claim C7: whenever the kernel's `Kdiag` agrees with the diagonal of
its `K` (the kernel interface contract), the diagonal of the full
covariance prediction equals the diagonal-only prediction at every
query index and output replicate, for both SGPR and FITC. -/
theorem diag_full_cov_agree {N D M R S : ℕ} (s : ModelState N D M R)
    (Xnew : Matrix (Fin S) (Fin D) ℚ)
    (hK : ∀ i, s.kern.Kdiag Xnew i = s.kern.K Xnew i i) :
    (∀ i r, SGPR.predict_var_full s Xnew i i r = SGPR.predict_var_diag s Xnew i r) ∧
    (∀ i r, GPRFITC.predict_var_full s Xnew i i r = GPRFITC.predict_var_diag s Xnew i r) := by
  constructor <;> intro i r
  · simp only [SGPR.predict_var_full, SGPR.predict_var_diag, Matrix.add_apply,
      Matrix.sub_apply, Matrix.mul_apply, Matrix.transpose_apply, hK i, pow_two]
  · simp only [GPRFITC.predict_var_full, GPRFITC.predict_var_diag, Matrix.add_apply,
      Matrix.sub_apply, Matrix.mul_apply, Matrix.transpose_apply, hK i, pow_two]

/-- Witness for claim C7 at a concrete state whose kernel satisfies the
diagonal contract. -/
theorem diag_full_cov_agree_witness :
    SGPR.predict_var_full wState wXnew 0 0 0 = SGPR.predict_var_diag wState wXnew 0 0 ∧
    GPRFITC.predict_var_full wState wXnew 0 0 0 = GPRFITC.predict_var_diag wState wXnew 0 0 := by
  have h := diag_full_cov_agree wState wXnew (by decide)
  exact ⟨h.1 0 0, h.2 0 0⟩

/-- Claim C8: any construction whose dimensions violate the section 3
invariants (rows(X) = rows(Y) and cols(Z) = cols(X)) yields a
ShapeMismatch error, for both SGPR and GPRFITC construction. -/
theorem shape_mismatch_eager (rX cX rY cY rZ cZ : ℕ) (h : rX ≠ rY ∨ cZ ≠ cX) :
    mkSGPR rX cX rY cY rZ cZ = Except.error ModelError.ShapeMismatch ∧
    mkGPRFITC rX cX rY cY rZ cZ = Except.error ModelError.ShapeMismatch := by
  have hc : checkShapes rX cX rY cY rZ cZ = Except.error ModelError.ShapeMismatch := by
    unfold checkShapes
    rw [if_neg]
    tauto
  refine ⟨?_, ?_⟩
  · unfold mkSGPR
    rw [hc]
  · unfold mkGPRFITC
    rw [hc]

/-- Witness for claim C8: rows(X) = 2 against rows(Y) = 3. -/
theorem shape_mismatch_eager_witness :
    mkSGPR 2 1 3 1 2 1 = Except.error ModelError.ShapeMismatch ∧
    mkGPRFITC 2 1 3 1 2 1 = Except.error ModelError.ShapeMismatch :=
  shape_mismatch_eager 2 1 3 1 2 1 (by decide)

/-- Claim C9: evidence and predict are deterministic pure functions of
the parameter snapshot: a call leaves the state unchanged, and a second
call on the resulting state returns the identical value, for both
engines and for predict with either flag. -/
theorem evidence_predict_pure {N D M R S : ℕ} (s : ModelState N D M R)
    (Xnew : Matrix (Fin S) (Fin D) ℚ) (fc : Bool) :
    (SGPR.evidence_call s).2 = s ∧
    (SGPR.evidence_call ((SGPR.evidence_call s).2)).1 = (SGPR.evidence_call s).1 ∧
    (SGPR.predict_call s Xnew fc).2 = s ∧
    (SGPR.predict_call ((SGPR.predict_call s Xnew fc).2) Xnew fc).1 =
      (SGPR.predict_call s Xnew fc).1 ∧
    (GPRFITC.evidence_call s).2 = s ∧
    (GPRFITC.evidence_call ((GPRFITC.evidence_call s).2)).1 = (GPRFITC.evidence_call s).1 ∧
    (GPRFITC.predict_call s Xnew fc).2 = s ∧
    (GPRFITC.predict_call ((GPRFITC.predict_call s Xnew fc).2) Xnew fc).1 =
      (GPRFITC.predict_call s Xnew fc).1 :=
  ⟨rfl, rfl, rfl, rfl, rfl, rfl, rfl, rfl⟩

/-- Claim C10: the predicted variance (full or diagonal, SGPR or FITC)
is unchanged when Y and the mean function are replaced, keeping their
shapes; only the mean depends on them. -/
theorem predict_var_independent_of_Y {N D M R S : ℕ} (s : ModelState N D M R)
    (Ynew : Matrix (Fin N) (Fin R) ℚ) (mf : MeanFn D R)
    (Xnew : Matrix (Fin S) (Fin D) ℚ) :
    SGPR.predict_var_full { s with Y := Ynew, mean_function := mf } Xnew =
      SGPR.predict_var_full s Xnew ∧
    SGPR.predict_var_diag { s with Y := Ynew, mean_function := mf } Xnew =
      SGPR.predict_var_diag s Xnew ∧
    GPRFITC.predict_var_full { s with Y := Ynew, mean_function := mf } Xnew =
      GPRFITC.predict_var_full s Xnew ∧
    GPRFITC.predict_var_diag { s with Y := Ynew, mean_function := mf } Xnew =
      GPRFITC.predict_var_diag s Xnew :=
  ⟨rfl, rfl, rfl, rfl⟩
